import Mathlib

/-!
Shallow embedding of the log-shipping client of this repository
(`Logging_Middleware/src/logger.ts`, distributed compiled as
`LoggingMiddleware`, together with `factory.ts`).

The effectful parts are modelled explicitly:
* the network is a function `net : Nat → NetResponse` giving the outcome of
  the HTTP POST issued on each attempt number (axios resolves with a status
  and a possibly-empty parsed body, or rejects with a JS error value that may
  carry an HTTP status from `error.response`);
* every observable side effect (HTTP request, backoff wait, console write) is
  recorded in order in a trace of `Event`s;
* the current wall-clock ISO timestamp used by `logToConsole` is passed in as
  a string parameter `now`;
* the mutable `this.config` / `this.apiClient` of the class are a
  `MiddlewareState` value, and the mutating method `updateAccessToken` is a
  state-to-state function.
-/

/-- The structured record shipped to the collector: a JSON body with exactly
the fields `stack`, `level`, `package`, `message` (source: `LogEntry`). -/
structure LogEntry where
  stack : String
  level : String
  package : String
  message : String
deriving Repr, DecidableEq

/-- Parsed collector acknowledgement body (source: `LogResponse`). -/
structure LogResponse where
  logID : String
  message : String
deriving Repr, DecidableEq

/-- A JavaScript error value as observed by the catch block of
`sendLogToAPI`: whether `axios.isAxiosError` holds of it, the optional
`error.response?.status`, and `error.message`. -/
structure JsError where
  isAxiosError : Bool
  status : Option Nat
  message : String
deriving Repr, DecidableEq

/-- Outcome of one HTTP POST: the promise either resolves with a status and
a parsed body (`none` models an empty/falsy `response.data`), or rejects
with a JS error. With default axios settings only 2xx statuses resolve;
non-2xx statuses, network errors and timeouts reject. -/
inductive NetResponse where
  | resolved (status : Nat) (data : Option LogResponse)
  | rejected (e : JsError)
deriving Repr, DecidableEq

/-- Console channel used by a `console.*` call. -/
inductive ConsoleChannel where
  | debug
  | info
  | warn
  | error
  | log
deriving Repr, DecidableEq

/-- One argument of a `console.*` call: a string, a JS error object, a log
entry object, or `undefined`. -/
inductive ConsoleArg where
  | str (s : String)
  | errArg (e : JsError)
  | entryArg (e : LogEntry)
  | undef
deriving Repr, DecidableEq

/-- The observable data of one HTTP request issued by the delivery loop. -/
structure PostInfo where
  attempt : Nat
  method : String
  baseURL : String
  path : String
  contentType : String
  auth : String
  timeout : Nat
  body : LogEntry
deriving Repr, DecidableEq

/-- One observable side effect of the shipper, in program order. -/
inductive Event where
  | post (p : PostInfo)
  | wait (ms : Nat)
  | console (ch : ConsoleChannel) (args : List ConsoleArg)
deriving Repr, DecidableEq

/-- The HTTP requests recorded in a trace, in order. -/
def posts (tr : List Event) : List PostInfo :=
  tr.filterMap fun e =>
    match e with
    | .post p => some p
    | _ => none

/-- The backoff waits recorded in a trace, in order (milliseconds). -/
def waits (tr : List Event) : List Nat :=
  tr.filterMap fun e =>
    match e with
    | .wait ms => some ms
    | _ => none

/-- Constructor argument (source: `LoggerConfig`): `apiUrl`, `accessToken`
and `defaultStack` are mandatory, the remaining fields are optional. -/
structure LoggerConfig where
  apiUrl : String
  accessToken : String
  defaultStack : String
  enableConsoleLog : Option Bool
  retryAttempts : Option Int
  retryDelay : Option Nat
deriving Repr, DecidableEq

/-- The merged `this.config` after the constructor spreads the caller
config over the defaults. `retryAttempts` is an `Int` because the source
accepts any JS number without validation. -/
structure Config where
  apiUrl : String
  accessToken : String
  defaultStack : String
  enableConsoleLog : Bool
  retryAttempts : Int
  retryDelay : Nat
deriving Repr, DecidableEq

/-- The axios instance created by the constructor: base URL, default
headers, and the fixed request timeout. -/
structure ApiClient where
  baseURL : String
  contentType : String
  authHeader : String
  timeout : Nat
deriving Repr, DecidableEq

/-- The mutable instance state of a `LoggingMiddleware` object. -/
structure MiddlewareState where
  config : Config
  apiClient : ApiClient
deriving Repr, DecidableEq

namespace LoggingMiddleware

/-- The constructor: merge the defaults
`enableConsoleLog: true, retryAttempts: 3, retryDelay: 1000` with the caller
config, then create the axios client with base URL `config.apiUrl`, headers
`Content-Type: application/json` and `Authorization: Bearer <accessToken>`,
and a 10000 ms timeout. -/
def create (input : LoggerConfig) : MiddlewareState :=
  let cfg : Config :=
    { apiUrl := input.apiUrl
      accessToken := input.accessToken
      defaultStack := input.defaultStack
      enableConsoleLog := input.enableConsoleLog.getD true
      retryAttempts := input.retryAttempts.getD 3
      retryDelay := input.retryDelay.getD 1000 }
  { config := cfg
    apiClient :=
      { baseURL := cfg.apiUrl
        contentType := "application/json"
        authHeader := "Bearer " ++ cfg.accessToken
        timeout := 10000 } }

/-- The `switch (logEntry.level)` of `logToConsole`: route to the console
channel for the level; `error` and `fatal` both go to the error channel,
anything else falls to the default `console.log` branch. -/
def consoleChannelFor (level : String) : ConsoleChannel :=
  match level with
  | "debug" => ConsoleChannel.debug
  | "info" => ConsoleChannel.info
  | "warn" => ConsoleChannel.warn
  | "error" => ConsoleChannel.error
  | "fatal" => ConsoleChannel.error
  | _ => ConsoleChannel.log

/-- The formatted echo line of `logToConsole`:
`[<timestamp>] [<STACK upper>] [<LEVEL upper>] [<package>] <message>`. -/
def formatLogMessage (now : String) (entry : LogEntry) : String :=
  "[" ++ now ++ "] [" ++ entry.stack.toUpper ++ "] [" ++ entry.level.toUpper
    ++ "] [" ++ entry.package ++ "] " ++ entry.message

/-- `logToConsole`: one console write of the formatted line, on the channel
selected by the level. -/
def logToConsole (now : String) (entry : LogEntry) : Event :=
  Event.console (consoleChannelFor entry.level) [ConsoleArg.str (formatLogMessage now entry)]

/-- The code after the retry loop of `sendLogToAPI`: if console logging is
enabled, `console.error` the failure with `lastError?.message` (which is
`undefined` when no error was caught) and then the original entry. -/
def finalFailure (cfg : Config) (entry : LogEntry) (lastError : Option JsError) :
    List Event :=
  if cfg.enableConsoleLog then
    [Event.console ConsoleChannel.error
        [ConsoleArg.str "Failed to send log to API after all retries:",
         match lastError with
         | none => ConsoleArg.undef
         | some e => ConsoleArg.str e.message],
     Event.console ConsoleChannel.error
        [ConsoleArg.str "Original log entry:", ConsoleArg.entryArg entry]]
  else []

/-- One step-indexed unfolding of the `for (let attempt = 1; attempt <=
retryAttempts; attempt++)` loop of `sendLogToAPI`. `fuel` counts the loop
iterations still allowed (`retryAttempts - attempt + 1` at entry), so the
loop guard `attempt <= retryAttempts` is `fuel > 0`. Each iteration posts
the entry; a resolved response returns its data when
`response.status === 200 && response.data`, and otherwise falls through to
the next iteration with no wait (the delay sits in the catch block); a
rejected promise is caught: it becomes `lastError`, is warned about when
console logging is on, aborts the loop on an axios error with response
status 401 or 403, and otherwise waits `retryDelay * attempt` when
`attempt < retryAttempts` before the next iteration. -/
def sendLoop (cfg : Config) (client : ApiClient) (net : Nat → NetResponse)
    (entry : LogEntry) :
    Nat → Nat → Option JsError → Option LogResponse × List Event
  | _attempt, 0, lastError => (none, finalFailure cfg entry lastError)
  | attempt, fuel + 1, lastError =>
    let postEv : Event := Event.post
      { attempt := attempt
        method := "POST"
        baseURL := client.baseURL
        path := "/logs"
        contentType := client.contentType
        auth := client.authHeader
        timeout := client.timeout
        body := entry }
    match net attempt with
    | NetResponse.resolved status data =>
      if status == 200 && data.isSome then
        (data, [postEv])
      else
        let rest := sendLoop cfg client net entry (attempt + 1) fuel lastError
        (rest.1, postEv :: rest.2)
    | NetResponse.rejected e =>
      let warnEvs : List Event :=
        if cfg.enableConsoleLog then
          [Event.console ConsoleChannel.warn
            [ConsoleArg.str ("Log API attempt " ++ toString attempt ++ "/"
                ++ toString cfg.retryAttempts ++ " failed:"),
             ConsoleArg.errArg e]]
        else []
      if e.isAxiosError && (e.status == some 401 || e.status == some 403) then
        let authEvs : List Event :=
          if cfg.enableConsoleLog then
            [Event.console ConsoleChannel.error
              [ConsoleArg.str
                "Authentication failed for logging API. Check your access token."]]
          else []
        (none, postEv :: (warnEvs ++ authEvs ++ finalFailure cfg entry (some e)))
      else
        let waitEvs : List Event :=
          if (attempt : Int) < cfg.retryAttempts then
            [Event.wait (cfg.retryDelay * attempt)]
          else []
        let rest := sendLoop cfg client net entry (attempt + 1) fuel (some e)
        (rest.1, postEv :: (warnEvs ++ waitEvs ++ rest.2))

/-- `sendLogToAPI`: run the retry loop from attempt 1 with `lastError =
null`. `Int.toNat` makes a non-positive `retryAttempts` run zero
iterations, exactly like the JS `for` guard. -/
def sendLogToAPI (st : MiddlewareState) (net : Nat → NetResponse)
    (entry : LogEntry) : Option LogResponse × List Event :=
  sendLoop st.config st.apiClient net entry 1 st.config.retryAttempts.toNat none

/-- `log`: assemble the record, echo it to the console when
`enableConsoleLog`, then attempt delivery with retry. Returns the delivery
outcome and the ordered trace of side effects. -/
def log (st : MiddlewareState) (now : String) (net : Nat → NetResponse)
    (stack level packageName message : String) :
    Option LogResponse × List Event :=
  let logEntry : LogEntry :=
    { stack := stack, level := level, package := packageName, message := message }
  let consoleEvs : List Event :=
    if st.config.enableConsoleLog then [logToConsole now logEntry] else []
  let sent := sendLogToAPI st net logEntry
  (sent.1, consoleEvs ++ sent.2)

/-- `debug`: delegate to `log` with the configured default stack. -/
def debug (st : MiddlewareState) (now : String) (net : Nat → NetResponse)
    (packageName message : String) : Option LogResponse × List Event :=
  log st now net st.config.defaultStack "debug" packageName message

/-- `info`: delegate to `log` with the configured default stack. -/
def info (st : MiddlewareState) (now : String) (net : Nat → NetResponse)
    (packageName message : String) : Option LogResponse × List Event :=
  log st now net st.config.defaultStack "info" packageName message

/-- `warn`: delegate to `log` with the configured default stack. -/
def warn (st : MiddlewareState) (now : String) (net : Nat → NetResponse)
    (packageName message : String) : Option LogResponse × List Event :=
  log st now net st.config.defaultStack "warn" packageName message

/-- `error`: delegate to `log` with the configured default stack. -/
def error (st : MiddlewareState) (now : String) (net : Nat → NetResponse)
    (packageName message : String) : Option LogResponse × List Event :=
  log st now net st.config.defaultStack "error" packageName message

/-- `fatal`: delegate to `log` with the configured default stack. -/
def fatal (st : MiddlewareState) (now : String) (net : Nat → NetResponse)
    (packageName message : String) : Option LogResponse × List Event :=
  log st now net st.config.defaultStack "fatal" packageName message

/-- `updateAccessToken`: replace the stored token and the default
`Authorization` header of the axios client. -/
def updateAccessToken (st : MiddlewareState) (newToken : String) :
    MiddlewareState :=
  { config := { st.config with accessToken := newToken }
    apiClient := { st.apiClient with authHeader := "Bearer " ++ newToken } }

/-- `getConfig`: return a copy of the current configuration (copying is
identity on immutable Lean values). -/
def getConfig (st : MiddlewareState) : Config :=
  st.config

end LoggingMiddleware

/-- `createLogger` from `factory.ts`. -/
def createLogger (config : LoggerConfig) : MiddlewareState :=
  LoggingMiddleware.create config

/-- `createFrontendLogger` from `factory.ts`. -/
def createFrontendLogger (apiUrl accessToken : String) : MiddlewareState :=
  LoggingMiddleware.create
    { apiUrl := apiUrl
      accessToken := accessToken
      defaultStack := "frontend"
      enableConsoleLog := some true
      retryAttempts := some 3
      retryDelay := some 1000 }

/-- `createBackendLogger` from `factory.ts`. -/
def createBackendLogger (apiUrl accessToken : String) : MiddlewareState :=
  LoggingMiddleware.create
    { apiUrl := apiUrl
      accessToken := accessToken
      defaultStack := "backend"
      enableConsoleLog := some false
      retryAttempts := some 5
      retryDelay := some 2000 }

/-! ### Trace helper lemmas -/

@[simp]
theorem posts_nil : posts [] = [] := rfl

@[simp]
theorem posts_cons_post (p : PostInfo) (l : List Event) :
    posts (Event.post p :: l) = p :: posts l := rfl

@[simp]
theorem posts_cons_wait (ms : Nat) (l : List Event) :
    posts (Event.wait ms :: l) = posts l := rfl

@[simp]
theorem posts_cons_console (ch : ConsoleChannel) (args : List ConsoleArg)
    (l : List Event) : posts (Event.console ch args :: l) = posts l := rfl

@[simp]
theorem posts_append (l1 l2 : List Event) :
    posts (l1 ++ l2) = posts l1 ++ posts l2 := by
  simp [posts]

@[simp]
theorem posts_ite (c : Prop) [Decidable c] (l1 l2 : List Event) :
    posts (if c then l1 else l2) = if c then posts l1 else posts l2 := by
  split <;> rfl

@[simp]
theorem waits_nil : waits [] = [] := rfl

@[simp]
theorem waits_cons_post (p : PostInfo) (l : List Event) :
    waits (Event.post p :: l) = waits l := rfl

@[simp]
theorem waits_cons_wait (ms : Nat) (l : List Event) :
    waits (Event.wait ms :: l) = ms :: waits l := rfl

@[simp]
theorem waits_cons_console (ch : ConsoleChannel) (args : List ConsoleArg)
    (l : List Event) : waits (Event.console ch args :: l) = waits l := rfl

@[simp]
theorem waits_append (l1 l2 : List Event) :
    waits (l1 ++ l2) = waits l1 ++ waits l2 := by
  simp [waits]

@[simp]
theorem waits_ite (c : Prop) [Decidable c] (l1 l2 : List Event) :
    waits (if c then l1 else l2) = if c then waits l1 else waits l2 := by
  split <;> rfl

@[simp]
theorem posts_finalFailure (cfg : Config) (entry : LogEntry)
    (lastError : Option JsError) :
    posts (LoggingMiddleware.finalFailure cfg entry lastError) = [] := by
  unfold LoggingMiddleware.finalFailure
  split <;> rfl

@[simp]
theorem waits_finalFailure (cfg : Config) (entry : LogEntry)
    (lastError : Option JsError) :
    waits (LoggingMiddleware.finalFailure cfg entry lastError) = [] := by
  unfold LoggingMiddleware.finalFailure
  split <;> rfl

/-! ### Auxiliary lemmas about the delivery loop -/

/-- Every request issued by the loop is a POST of the entry to `/logs` with
the default headers and timeout of the axios client. -/
theorem sendLoop_posts_shape (cfg : Config) (client : ApiClient)
    (net : Nat → NetResponse) (entry : LogEntry) :
    ∀ fuel attempt lastError p,
      p ∈ posts (LoggingMiddleware.sendLoop cfg client net entry attempt fuel lastError).2 →
      p.method = "POST" ∧ p.baseURL = client.baseURL ∧ p.path = "/logs" ∧
      p.contentType = client.contentType ∧ p.auth = client.authHeader ∧
      p.timeout = client.timeout ∧ p.body = entry := by
  intro fuel
  induction fuel with
  | zero =>
    intro attempt lastError p hp
    simp [LoggingMiddleware.sendLoop] at hp
  | succ f ih =>
    intro attempt lastError p hp
    rcases hn : net attempt with ⟨status, data⟩ | ⟨e⟩
    · by_cases hs : (status == 200 && data.isSome) = true
      · simp only [LoggingMiddleware.sendLoop, hn] at hp
        simp [hs] at hp
        subst hp
        exact ⟨rfl, rfl, rfl, rfl, rfl, rfl, rfl⟩
      · simp only [LoggingMiddleware.sendLoop, hn] at hp
        simp [hs] at hp
        rcases hp with hp | hp
        · subst hp
          exact ⟨rfl, rfl, rfl, rfl, rfl, rfl, rfl⟩
        · exact ih (attempt + 1) lastError p hp
    · by_cases hb :
        (e.isAxiosError && (e.status == some 401 || e.status == some 403)) = true
      · simp only [LoggingMiddleware.sendLoop, hn] at hp
        simp [hb] at hp
        subst hp
        exact ⟨rfl, rfl, rfl, rfl, rfl, rfl, rfl⟩
      · simp only [LoggingMiddleware.sendLoop, hn] at hp
        simp [hb] at hp
        rcases hp with hp | hp
        · subst hp
          exact ⟨rfl, rfl, rfl, rfl, rfl, rfl, rfl⟩
        · exact ih (attempt + 1) (some e) p hp

/-- If the loop returns a body, some attempt at or after the current one
resolved with status 200 and that non-empty body. -/
theorem sendLoop_some_sound (cfg : Config) (client : ApiClient)
    (net : Nat → NetResponse) (entry : LogEntry) :
    ∀ fuel attempt lastError b,
      (LoggingMiddleware.sendLoop cfg client net entry attempt fuel lastError).1 = some b →
      ∃ n, attempt ≤ n ∧ net n = NetResponse.resolved 200 (some b) := by
  intro fuel
  induction fuel with
  | zero =>
    intro attempt lastError b h
    simp [LoggingMiddleware.sendLoop] at h
  | succ f ih =>
    intro attempt lastError b h
    rcases hn : net attempt with ⟨status, data⟩ | ⟨e⟩
    · by_cases hs : (status == 200 && data.isSome) = true
      · simp only [LoggingMiddleware.sendLoop, hn] at h
        simp [hs] at h
        have hstat : status = 200 := by
          have := (Bool.and_eq_true _ _).mp hs
          exact eq_of_beq this.1
        refine ⟨attempt, le_refl _, ?_⟩
        rw [hn, hstat, h]
      · simp only [LoggingMiddleware.sendLoop, hn] at h
        simp [hs] at h
        obtain ⟨n, hn1, hn2⟩ := ih (attempt + 1) lastError b h
        exact ⟨n, by omega, hn2⟩
    · by_cases hb :
        (e.isAxiosError && (e.status == some 401 || e.status == some 403)) = true
      · simp only [LoggingMiddleware.sendLoop, hn] at h
        simp [hb] at h
      · simp only [LoggingMiddleware.sendLoop, hn] at h
        simp [hb] at h
        obtain ⟨n, hn1, hn2⟩ := ih (attempt + 1) (some e) b h
        exact ⟨n, by omega, hn2⟩

/-- One-step unfolding of the loop for a caught rejection that is not a
401/403 abort: record the POST, the optional `console.warn`, the optional
backoff wait, and continue with the next attempt carrying the new
`lastError`. -/
theorem sendLoop_rejected_noabort_eq (cfg : Config) (client : ApiClient)
    (net : Nat → NetResponse) (entry : LogEntry)
    (attempt f : Nat) (lastError : Option JsError) (e : JsError)
    (hn : net attempt = NetResponse.rejected e)
    (hab : (e.isAxiosError && (e.status == some 401 || e.status == some 403)) = false) :
    LoggingMiddleware.sendLoop cfg client net entry attempt (f + 1) lastError
      = ((LoggingMiddleware.sendLoop cfg client net entry (attempt + 1) f (some e)).1,
         Event.post
             { attempt := attempt, method := "POST", baseURL := client.baseURL,
               path := "/logs", contentType := client.contentType,
               auth := client.authHeader, timeout := client.timeout,
               body := entry }
           :: ((if cfg.enableConsoleLog then
                  [Event.console ConsoleChannel.warn
                    [ConsoleArg.str ("Log API attempt " ++ toString attempt ++ "/"
                        ++ toString cfg.retryAttempts ++ " failed:"),
                     ConsoleArg.errArg e]]
                else []) ++
               ((if (attempt : Int) < cfg.retryAttempts then
                   [Event.wait (cfg.retryDelay * attempt)]
                 else []) ++
                (LoggingMiddleware.sendLoop cfg client net entry (attempt + 1) f (some e)).2))) := by
  simp only [LoggingMiddleware.sendLoop, hn]
  simp [hab]

/-- With a network that rejects every attempt with a non-aborting error,
the loop returns `null`. -/
theorem sendLoop_allrejected_none (cfg : Config) (client : ApiClient)
    (net : Nat → NetResponse) (entry : LogEntry) (err : Nat → JsError)
    (hnet : ∀ n, net n = NetResponse.rejected (err n))
    (habort : ∀ n, ((err n).isAxiosError &&
      ((err n).status == some 401 || (err n).status == some 403)) = false) :
    ∀ fuel attempt lastError,
      (LoggingMiddleware.sendLoop cfg client net entry attempt fuel lastError).1 = none := by
  intro fuel
  induction fuel with
  | zero =>
    intro attempt lastError
    simp [LoggingMiddleware.sendLoop]
  | succ f ih =>
    intro attempt lastError
    have h := ih (attempt + 1) (some (err attempt))
    simp only [LoggingMiddleware.sendLoop, hnet attempt]
    simp [habort attempt, h]

/-- With a network that rejects every attempt with a non-aborting error,
the loop posts the entry once per remaining attempt, numbering the attempts
consecutively. -/
theorem sendLoop_allrejected_posts (cfg : Config) (client : ApiClient)
    (net : Nat → NetResponse) (entry : LogEntry) (err : Nat → JsError)
    (hnet : ∀ n, net n = NetResponse.rejected (err n))
    (habort : ∀ n, ((err n).isAxiosError &&
      ((err n).status == some 401 || (err n).status == some 403)) = false) :
    ∀ fuel attempt lastError,
      posts (LoggingMiddleware.sendLoop cfg client net entry attempt fuel lastError).2
        = (List.range' attempt fuel).map (fun a =>
            { attempt := a, method := "POST", baseURL := client.baseURL,
              path := "/logs", contentType := client.contentType,
              auth := client.authHeader, timeout := client.timeout,
              body := entry }) := by
  intro fuel
  induction fuel with
  | zero =>
    intro attempt lastError
    simp [LoggingMiddleware.sendLoop]
  | succ f ih =>
    intro attempt lastError
    have h := ih (attempt + 1) (some (err attempt))
    simp only [LoggingMiddleware.sendLoop, hnet attempt]
    simp [habort attempt, h, List.range'_succ]

/-- With a network that rejects every attempt with a non-aborting error,
and the fuel/attempt invariant of `sendLogToAPI`, the loop waits
`retryDelay * n` after attempt `n` for every attempt but the last. -/
theorem sendLoop_allrejected_waits (cfg : Config) (client : ApiClient)
    (net : Nat → NetResponse) (entry : LogEntry) (err : Nat → JsError)
    (hnet : ∀ n, net n = NetResponse.rejected (err n))
    (habort : ∀ n, ((err n).isAxiosError &&
      ((err n).status == some 401 || (err n).status == some 403)) = false) :
    ∀ (fuel attempt : Nat) (lastError : Option JsError),
      ((attempt : Int) + (fuel : Int) = cfg.retryAttempts + 1) →
      waits (LoggingMiddleware.sendLoop cfg client net entry attempt fuel lastError).2
        = (List.range' attempt (fuel - 1)).map (fun a => cfg.retryDelay * a) := by
  intro fuel
  induction fuel with
  | zero =>
    intro attempt lastError _
    simp [LoggingMiddleware.sendLoop, List.range']
  | succ f ih =>
    intro attempt lastError hinv
    rw [sendLoop_rejected_noabort_eq cfg client net entry attempt f lastError
      (err attempt) (hnet attempt) (habort attempt)]
    rcases f with _ | g
    · have hlt : ¬ ((attempt : Int) < cfg.retryAttempts) := by
        push_cast at hinv
        omega
      simp [hlt, LoggingMiddleware.sendLoop, List.range']
    · have hlt : (attempt : Int) < cfg.retryAttempts := by
        push_cast at hinv
        omega
      have hrec := ih (attempt + 1) (some (err attempt)) (by push_cast at hinv ⊢; omega)
      simp [hlt, hrec, List.range'_succ]

/-- After a caught non-aborting rejection, the remaining trace of the loop
is appended after the events of the failed attempt. -/
theorem sendLoop_step_rejected (cfg : Config) (client : ApiClient)
    (net : Nat → NetResponse) (entry : LogEntry)
    (attempt f : Nat) (lastError : Option JsError) (e : JsError)
    (hn : net attempt = NetResponse.rejected e)
    (hab : (e.isAxiosError && (e.status == some 401 || e.status == some 403)) = false) :
    ∃ pre,
      (LoggingMiddleware.sendLoop cfg client net entry attempt (f + 1) lastError).2
        = pre ++ (LoggingMiddleware.sendLoop cfg client net entry (attempt + 1) f (some e)).2 := by
  refine ⟨?_, ?_⟩
  · exact Event.post
      { attempt := attempt, method := "POST", baseURL := client.baseURL,
        path := "/logs", contentType := client.contentType,
        auth := client.authHeader, timeout := client.timeout, body := entry } ::
      ((if cfg.enableConsoleLog then
          [Event.console ConsoleChannel.warn
            [ConsoleArg.str ("Log API attempt " ++ toString attempt ++ "/"
                ++ toString cfg.retryAttempts ++ " failed:"),
             ConsoleArg.errArg e]]
        else []) ++
       (if (attempt : Int) < cfg.retryAttempts then
          [Event.wait (cfg.retryDelay * attempt)]
        else []))
  · simp only [LoggingMiddleware.sendLoop, hn]
    simp [hab]

/-- With console echo on and a network that rejects every attempt with a
non-aborting error, the trace contains the two final `console.error`
diagnostics: the message of the last error (the one of the last attempt)
and the original entry. -/
theorem sendLoop_allrejected_diag (cfg : Config) (client : ApiClient)
    (net : Nat → NetResponse) (entry : LogEntry) (err : Nat → JsError)
    (hnet : ∀ n, net n = NetResponse.rejected (err n))
    (habort : ∀ n, ((err n).isAxiosError &&
      ((err n).status == some 401 || (err n).status == some 403)) = false)
    (hecho : cfg.enableConsoleLog = true) :
    ∀ fuel attempt lastError, 1 ≤ fuel →
      Event.console ConsoleChannel.error
          [ConsoleArg.str "Failed to send log to API after all retries:",
           ConsoleArg.str (err (attempt + fuel - 1)).message]
        ∈ (LoggingMiddleware.sendLoop cfg client net entry attempt fuel lastError).2 ∧
      Event.console ConsoleChannel.error
          [ConsoleArg.str "Original log entry:", ConsoleArg.entryArg entry]
        ∈ (LoggingMiddleware.sendLoop cfg client net entry attempt fuel lastError).2 := by
  intro fuel
  induction fuel with
  | zero =>
    intro attempt lastError h
    exact absurd h (by omega)
  | succ f ih =>
    intro attempt lastError _
    rcases f with _ | g
    · by_cases hw : ((attempt : Int) < cfg.retryAttempts)
      · simp only [LoggingMiddleware.sendLoop, hnet attempt]
        simp [habort attempt, hw, LoggingMiddleware.finalFailure, hecho]
      · simp only [LoggingMiddleware.sendLoop, hnet attempt]
        simp [habort attempt, hw, LoggingMiddleware.finalFailure, hecho]
    · have hrec := ih (attempt + 1) (some (err attempt)) (by omega)
      have hidx : attempt + (g + 1 + 1) - 1 = attempt + 1 + (g + 1) - 1 := by omega
      rw [hidx]
      obtain ⟨pre, hpre⟩ := sendLoop_step_rejected cfg client net entry attempt
        (g + 1) lastError (err attempt) (hnet attempt) (habort attempt)
      rw [hpre]
      exact ⟨List.mem_append_right pre hrec.1, List.mem_append_right pre hrec.2⟩

/-- Every request issued by a `log` call is a POST of the assembled record
to `/logs` with the default headers and timeout of the axios client. -/
theorem log_posts_shape (st : MiddlewareState) (now : String)
    (net : Nat → NetResponse) (stack level packageName message : String)
    (p : PostInfo)
    (hp : p ∈ posts (LoggingMiddleware.log st now net stack level packageName message).2) :
    p.method = "POST" ∧ p.baseURL = st.apiClient.baseURL ∧ p.path = "/logs" ∧
    p.contentType = st.apiClient.contentType ∧ p.auth = st.apiClient.authHeader ∧
    p.timeout = st.apiClient.timeout ∧
    p.body = { stack := stack, level := level, package := packageName,
               message := message } := by
  have hp' : p ∈ posts (LoggingMiddleware.sendLoop st.config st.apiClient net
      { stack := stack, level := level, package := packageName, message := message }
      1 st.config.retryAttempts.toNat none).2 := by
    simpa [LoggingMiddleware.log, LoggingMiddleware.sendLogToAPI,
      LoggingMiddleware.logToConsole] using hp
  exact sendLoop_posts_shape st.config st.apiClient net _ _ _ _ p hp'

/-- C1: for every well-typed call to `log` (and hence to every severity
method, which delegates to `log`) and every sequence of network outcomes,
the call returns normally: the modelled delivery is a total function whose
outcome is either `null` or the parsed body of an attempt that resolved
with status 200 and a non-empty body; every network rejection is absorbed
by the catch block rather than propagated. -/
theorem log_resolves_never_throws (st : MiddlewareState) (now : String)
    (net : Nat → NetResponse) (stack level packageName message : String) :
    (LoggingMiddleware.log st now net stack level packageName message).1 = none ∨
    ∃ n b, 1 ≤ n ∧ net n = NetResponse.resolved 200 (some b) ∧
      (LoggingMiddleware.log st now net stack level packageName message).1 = some b := by
  rcases h : (LoggingMiddleware.log st now net stack level packageName message).1 with _ | b
  · exact Or.inl rfl
  · right
    have h' : (LoggingMiddleware.sendLoop st.config st.apiClient net
        { stack := stack, level := level, package := packageName, message := message }
        1 st.config.retryAttempts.toNat none).1 = some b := by
      simpa [LoggingMiddleware.log, LoggingMiddleware.sendLogToAPI] using h
    obtain ⟨n, hn1, hn2⟩ := sendLoop_some_sound st.config st.apiClient net _ _ _ _ b h'
    exact ⟨n, b, hn1, hn2, rfl⟩

/-- C8: each severity method equals the core `log` operation applied with
the configured default stack and its own level literal; the stack argument
is available only on `log` itself. -/
theorem severity_methods_delegate (st : MiddlewareState) (now : String)
    (net : Nat → NetResponse) (packageName message : String) :
    LoggingMiddleware.debug st now net packageName message
        = LoggingMiddleware.log st now net st.config.defaultStack "debug" packageName message ∧
    LoggingMiddleware.info st now net packageName message
        = LoggingMiddleware.log st now net st.config.defaultStack "info" packageName message ∧
    LoggingMiddleware.warn st now net packageName message
        = LoggingMiddleware.log st now net st.config.defaultStack "warn" packageName message ∧
    LoggingMiddleware.error st now net packageName message
        = LoggingMiddleware.log st now net st.config.defaultStack "error" packageName message ∧
    LoggingMiddleware.fatal st now net packageName message
        = LoggingMiddleware.log st now net st.config.defaultStack "fatal" packageName message :=
  ⟨rfl, rfl, rfl, rfl, rfl⟩

/-- C7: `updateAccessToken` replaces the stored token and the default
`Authorization` header, leaves every other configuration and client field
unchanged (so no reconstruction of the shipper is needed), and every
request issued by a `log` call on the updated state carries
`Bearer <newToken>`, while a `log` call on the old state still carries the
old header (already-dispatched requests are unaffected); `log` and
`getConfig` are state-to-value functions that return no modified state, so
the explicit update is the only configuration mutation in the model. -/
theorem updateAccessToken_spec (st : MiddlewareState) (newToken : String) :
    ((LoggingMiddleware.updateAccessToken st newToken).config.accessToken = newToken) ∧
    ((LoggingMiddleware.updateAccessToken st newToken).apiClient.authHeader
        = "Bearer " ++ newToken) ∧
    ((LoggingMiddleware.updateAccessToken st newToken).config.apiUrl = st.config.apiUrl) ∧
    ((LoggingMiddleware.updateAccessToken st newToken).config.defaultStack
        = st.config.defaultStack) ∧
    ((LoggingMiddleware.updateAccessToken st newToken).config.enableConsoleLog
        = st.config.enableConsoleLog) ∧
    ((LoggingMiddleware.updateAccessToken st newToken).config.retryAttempts
        = st.config.retryAttempts) ∧
    ((LoggingMiddleware.updateAccessToken st newToken).config.retryDelay
        = st.config.retryDelay) ∧
    ((LoggingMiddleware.updateAccessToken st newToken).apiClient.baseURL
        = st.apiClient.baseURL) ∧
    ((LoggingMiddleware.updateAccessToken st newToken).apiClient.contentType
        = st.apiClient.contentType) ∧
    ((LoggingMiddleware.updateAccessToken st newToken).apiClient.timeout
        = st.apiClient.timeout) ∧
    (LoggingMiddleware.getConfig (LoggingMiddleware.updateAccessToken st newToken)
        = { st.config with accessToken := newToken }) ∧
    (LoggingMiddleware.getConfig st = st.config) ∧
    (∀ (now : String) (net : Nat → NetResponse)
        (stack level packageName message : String) (p : PostInfo),
        p ∈ posts (LoggingMiddleware.log (LoggingMiddleware.updateAccessToken st newToken)
            now net stack level packageName message).2 →
        p.auth = "Bearer " ++ newToken) ∧
    (∀ (now : String) (net : Nat → NetResponse)
        (stack level packageName message : String) (p : PostInfo),
        p ∈ posts (LoggingMiddleware.log st now net stack level packageName message).2 →
        p.auth = st.apiClient.authHeader) := by
  refine ⟨rfl, rfl, rfl, rfl, rfl, rfl, rfl, rfl, rfl, rfl, rfl, rfl, ?_, ?_⟩
  · intro now net stack level packageName message p hp
    exact (log_posts_shape _ now net stack level packageName message p hp).2.2.2.2.1
  · intro now net stack level packageName message p hp
    exact (log_posts_shape st now net stack level packageName message p hp).2.2.2.2.1

/-- C9: every request of a shipper built by the constructor is a POST to
`<apiUrl>/logs` with headers `Content-Type: application/json` and
`Authorization: Bearer <accessToken>`, a body holding exactly the four
record fields, and a 10000 ms timeout; the constructor defaults are
`enableConsoleLog = true`, `retryAttempts = 3`, `retryDelay = 1000`; the
frontend factory profile is `frontend`/echo on/3 attempts/1000 ms and the
backend factory profile is `backend`/echo off/5 attempts/2000 ms. -/
theorem wire_contract_and_profiles :
    (∀ (input : LoggerConfig) (now : String) (net : Nat → NetResponse)
        (stack level packageName message : String) (p : PostInfo),
        p ∈ posts (LoggingMiddleware.log (LoggingMiddleware.create input)
            now net stack level packageName message).2 →
        p.method = "POST" ∧ p.baseURL = input.apiUrl ∧ p.path = "/logs" ∧
        p.contentType = "application/json" ∧
        p.auth = "Bearer " ++ input.accessToken ∧ p.timeout = 10000 ∧
        p.body = { stack := stack, level := level, package := packageName,
                   message := message }) ∧
    (∀ apiUrl accessToken defaultStack : String,
        (LoggingMiddleware.create
            { apiUrl := apiUrl, accessToken := accessToken,
              defaultStack := defaultStack, enableConsoleLog := none,
              retryAttempts := none, retryDelay := none }).config
          = { apiUrl := apiUrl, accessToken := accessToken,
              defaultStack := defaultStack, enableConsoleLog := true,
              retryAttempts := 3, retryDelay := 1000 }) ∧
    (∀ apiUrl accessToken : String,
        (createFrontendLogger apiUrl accessToken).config
          = { apiUrl := apiUrl, accessToken := accessToken,
              defaultStack := "frontend", enableConsoleLog := true,
              retryAttempts := 3, retryDelay := 1000 }) ∧
    (∀ apiUrl accessToken : String,
        (createBackendLogger apiUrl accessToken).config
          = { apiUrl := apiUrl, accessToken := accessToken,
              defaultStack := "backend", enableConsoleLog := false,
              retryAttempts := 5, retryDelay := 2000 }) := by
  refine ⟨?_, fun _ _ _ => rfl, fun _ _ => rfl, fun _ _ => rfl⟩
  intro input now net stack level packageName message p hp
  exact log_posts_shape (LoggingMiddleware.create input) now net stack level
    packageName message p hp

/-- C3: on a 401 response (an axios error carrying response status 401),
the loop aborts immediately: exactly one request is issued, no backoff wait
occurs, and `log` returns `null`. -/
theorem abort_on_401 (st : MiddlewareState) (now : String)
    (net : Nat → NetResponse) (stack level packageName message : String)
    (e : JsError) (hnet : ∀ n, net n = NetResponse.rejected e)
    (hax : e.isAxiosError = true) (hst : e.status = some 401)
    (hR : 1 ≤ st.config.retryAttempts) :
    (LoggingMiddleware.log st now net stack level packageName message).1 = none ∧
    (posts (LoggingMiddleware.log st now net stack level packageName message).2).map
        (fun p => p.attempt) = [1] ∧
    waits (LoggingMiddleware.log st now net stack level packageName message).2 = [] := by
  obtain ⟨f, hf⟩ : ∃ f, st.config.retryAttempts.toNat = f + 1 :=
    ⟨st.config.retryAttempts.toNat - 1, by omega⟩
  simp only [LoggingMiddleware.log, LoggingMiddleware.sendLogToAPI, hf]
  simp only [LoggingMiddleware.sendLoop, hnet 1]
  simp [hax, hst, LoggingMiddleware.logToConsole]

/-- C4: a delivery attempt succeeds exactly when the response resolves with
HTTP status 200 and a non-empty body: with such a first response, the loop
terminates immediately (one request, no wait) and `log` returns the parsed
body; conversely, whenever `log` returns a body, some attempt resolved with
status 200 and that non-empty body. -/
theorem success_iff_200_nonempty (st : MiddlewareState) (now : String)
    (net : Nat → NetResponse) (stack level packageName message : String)
    (b : LogResponse) (hR : 1 ≤ st.config.retryAttempts) :
    (net 1 = NetResponse.resolved 200 (some b) →
      (LoggingMiddleware.log st now net stack level packageName message).1 = some b ∧
      (posts (LoggingMiddleware.log st now net stack level packageName message).2).map
          (fun p => p.attempt) = [1] ∧
      waits (LoggingMiddleware.log st now net stack level packageName message).2 = []) ∧
    (∀ c, (LoggingMiddleware.log st now net stack level packageName message).1 = some c →
      ∃ n, 1 ≤ n ∧ net n = NetResponse.resolved 200 (some c)) := by
  constructor
  · intro h1
    obtain ⟨f, hf⟩ : ∃ f, st.config.retryAttempts.toNat = f + 1 :=
      ⟨st.config.retryAttempts.toNat - 1, by omega⟩
    simp only [LoggingMiddleware.log, LoggingMiddleware.sendLogToAPI, hf]
    simp only [LoggingMiddleware.sendLoop, h1]
    simp [LoggingMiddleware.logToConsole]
  · intro c hc
    have h' : (LoggingMiddleware.sendLoop st.config st.apiClient net
        { stack := stack, level := level, package := packageName, message := message }
        1 st.config.retryAttempts.toNat none).1 = some c := by
      simpa [LoggingMiddleware.log, LoggingMiddleware.sendLogToAPI] using hc
    exact sendLoop_some_sound st.config st.apiClient net _ _ _ _ c h'

/-- C6: with console echo enabled, every `log` call emits exactly one echo
line as the very first event of its trace, before any delivery event: the
line is the string `[now] [STACK] [LEVEL] [package] message` with stack and
level uppercased, and it is routed to the console channel matching the
level (`debug`, `info` and `warn` to their own channels, `error` and
`fatal` both to the error channel). -/
theorem console_echo_first_formatted (st : MiddlewareState) (now : String)
    (net : Nat → NetResponse) (stack level packageName message : String)
    (hecho : st.config.enableConsoleLog = true) :
    (LoggingMiddleware.log st now net stack level packageName message).2
      = Event.console (LoggingMiddleware.consoleChannelFor level)
          [ConsoleArg.str ("[" ++ now ++ "] [" ++ stack.toUpper ++ "] ["
              ++ level.toUpper ++ "] [" ++ packageName ++ "] " ++ message)]
        :: (LoggingMiddleware.sendLogToAPI st net
              { stack := stack, level := level, package := packageName,
                message := message }).2 ∧
    LoggingMiddleware.consoleChannelFor "debug" = ConsoleChannel.debug ∧
    LoggingMiddleware.consoleChannelFor "info" = ConsoleChannel.info ∧
    LoggingMiddleware.consoleChannelFor "warn" = ConsoleChannel.warn ∧
    LoggingMiddleware.consoleChannelFor "error" = ConsoleChannel.error ∧
    LoggingMiddleware.consoleChannelFor "fatal" = ConsoleChannel.error := by
  refine ⟨?_, rfl, rfl, rfl, rfl, rfl⟩
  simp [LoggingMiddleware.log, LoggingMiddleware.logToConsole,
    LoggingMiddleware.formatLogMessage, hecho]

/-- C5: if every attempt fails with a caught error carrying no HTTP
response status (e.g. a timeout) and `retryAttempts = N ≥ 1`, then exactly
N requests are issued (numbered 1..N), exactly N-1 backoff waits occur
(of magnitudes `retryDelay * 1 .. retryDelay * (N-1)`), `log` returns
`null`, and, when console echo is enabled, the trace contains the final
`console.error` diagnostics carrying the message of the last error and the
full record that failed to ship. -/
theorem exhausted_retries (st : MiddlewareState) (now : String)
    (net : Nat → NetResponse) (stack level packageName message : String)
    (err : Nat → JsError)
    (hnet : ∀ n, net n = NetResponse.rejected (err n))
    (hst : ∀ n, (err n).status = none)
    (N : Nat) (hN : st.config.retryAttempts = (N : Int)) (hN1 : 1 ≤ N) :
    (LoggingMiddleware.log st now net stack level packageName message).1 = none ∧
    (posts (LoggingMiddleware.log st now net stack level packageName message).2).map
        (fun p => p.attempt) = List.range' 1 N ∧
    (posts (LoggingMiddleware.log st now net stack level packageName message).2).length
        = N ∧
    waits (LoggingMiddleware.log st now net stack level packageName message).2
        = (List.range' 1 (N - 1)).map (fun a => st.config.retryDelay * a) ∧
    (waits (LoggingMiddleware.log st now net stack level packageName message).2).length
        = N - 1 ∧
    (st.config.enableConsoleLog = true →
      Event.console ConsoleChannel.error
          [ConsoleArg.str "Failed to send log to API after all retries:",
           ConsoleArg.str (err N).message]
        ∈ (LoggingMiddleware.log st now net stack level packageName message).2 ∧
      Event.console ConsoleChannel.error
          [ConsoleArg.str "Original log entry:",
           ConsoleArg.entryArg
             { stack := stack, level := level, package := packageName, message := message }]
        ∈ (LoggingMiddleware.log st now net stack level packageName message).2) := by
  have habort : ∀ n, ((err n).isAxiosError &&
      ((err n).status == some 401 || (err n).status == some 403)) = false := by
    intro n
    simp [hst n]
  have hfuel : st.config.retryAttempts.toNat = N := by
    rw [hN]
    simp
  have hres := sendLoop_allrejected_none st.config st.apiClient net
    { stack := stack, level := level, package := packageName, message := message }
    err hnet habort N 1 none
  have hposts := sendLoop_allrejected_posts st.config st.apiClient net
    { stack := stack, level := level, package := packageName, message := message }
    err hnet habort N 1 none
  have hwaits := sendLoop_allrejected_waits st.config st.apiClient net
    { stack := stack, level := level, package := packageName, message := message }
    err hnet habort N 1 none (by rw [hN]; push_cast; omega)
  refine ⟨?_, ?_, ?_, ?_, ?_, ?_⟩
  · simp only [LoggingMiddleware.log, LoggingMiddleware.sendLogToAPI, hfuel]
    exact hres
  · simp only [LoggingMiddleware.log, LoggingMiddleware.sendLogToAPI, hfuel]
    simp [LoggingMiddleware.logToConsole, hposts, List.map_map, Function.comp_def,
      List.map_id']
  · simp only [LoggingMiddleware.log, LoggingMiddleware.sendLogToAPI, hfuel]
    simp [LoggingMiddleware.logToConsole, hposts]
  · simp only [LoggingMiddleware.log, LoggingMiddleware.sendLogToAPI, hfuel]
    simp [LoggingMiddleware.logToConsole, hwaits]
  · simp only [LoggingMiddleware.log, LoggingMiddleware.sendLogToAPI, hfuel]
    simp [LoggingMiddleware.logToConsole, hwaits]
  · intro hecho
    have hdiag := sendLoop_allrejected_diag st.config st.apiClient net
      { stack := stack, level := level, package := packageName, message := message }
      err hnet habort hecho N 1 none (by omega)
    have hidx : 1 + N - 1 = N := by omega
    rw [hidx] at hdiag
    simp only [LoggingMiddleware.log, LoggingMiddleware.sendLogToAPI, hfuel]
    exact ⟨List.mem_append_right _ hdiag.1, List.mem_append_right _ hdiag.2⟩

/-- C10: with `retryAttempts ≤ 0` the loop guard fails immediately: `log`
issues zero requests and returns `null`, while (console echo enabled) still
emitting the echo line first and then the final failure diagnostic, whose
last-error slot is `undefined` because no attempt ever ran. -/
theorem nonpositive_retryAttempts (st : MiddlewareState) (now : String)
    (net : Nat → NetResponse) (stack level packageName message : String)
    (hR : st.config.retryAttempts ≤ 0)
    (hecho : st.config.enableConsoleLog = true) :
    (LoggingMiddleware.log st now net stack level packageName message).1 = none ∧
    posts (LoggingMiddleware.log st now net stack level packageName message).2 = [] ∧
    (LoggingMiddleware.log st now net stack level packageName message).2
      = [LoggingMiddleware.logToConsole now
           { stack := stack, level := level, package := packageName,
             message := message },
         Event.console ConsoleChannel.error
           [ConsoleArg.str "Failed to send log to API after all retries:",
            ConsoleArg.undef],
         Event.console ConsoleChannel.error
           [ConsoleArg.str "Original log entry:",
            ConsoleArg.entryArg
              { stack := stack, level := level, package := packageName, message := message }]] := by
  have hfuel : st.config.retryAttempts.toNat = 0 := Int.toNat_of_nonpos hR
  simp only [LoggingMiddleware.log, LoggingMiddleware.sendLogToAPI, hfuel]
  simp [LoggingMiddleware.sendLoop, LoggingMiddleware.finalFailure,
    LoggingMiddleware.logToConsole, hecho]

/-- One-step unfolding of the loop for a response that resolves with status
200 and a non-empty body: the loop returns the body at once, having issued
exactly this one request. -/
theorem sendLoop_resolved_success_eq (cfg : Config) (client : ApiClient)
    (net : Nat → NetResponse) (entry : LogEntry)
    (attempt f : Nat) (lastError : Option JsError) (b : LogResponse)
    (hn : net attempt = NetResponse.resolved 200 (some b)) :
    LoggingMiddleware.sendLoop cfg client net entry attempt (f + 1) lastError
      = (some b,
         [Event.post
            { attempt := attempt, method := "POST", baseURL := client.baseURL,
              path := "/logs", contentType := client.contentType,
              auth := client.authHeader, timeout := client.timeout,
              body := entry }]) := by
  simp only [LoggingMiddleware.sendLoop, hn]
  simp

/-- One-step unfolding of the loop for a response that resolves but fails
the `status === 200 && data` check: the loop records the POST and falls
through to the next attempt with no wait, no warning, and `lastError`
unchanged. -/
theorem sendLoop_resolved_fail_eq (cfg : Config) (client : ApiClient)
    (net : Nat → NetResponse) (entry : LogEntry)
    (attempt f : Nat) (lastError : Option JsError) (status : Nat)
    (data : Option LogResponse)
    (hn : net attempt = NetResponse.resolved status data)
    (hfail : (status == 200 && data.isSome) = false) :
    LoggingMiddleware.sendLoop cfg client net entry attempt (f + 1) lastError
      = ((LoggingMiddleware.sendLoop cfg client net entry (attempt + 1) f lastError).1,
         Event.post
             { attempt := attempt, method := "POST", baseURL := client.baseURL,
               path := "/logs", contentType := client.contentType,
               auth := client.authHeader, timeout := client.timeout,
               body := entry }
           :: (LoggingMiddleware.sendLoop cfg client net entry (attempt + 1) f lastError).2) := by
  simp only [LoggingMiddleware.sendLoop, hn]
  simp [hfail]

/-- C2 (amended): for a retryable failure that surfaces as a caught
rejection (network error, timeout, or a non-2xx status raised by the HTTP
client) on attempt n with n < retryAttempts, the loop waits exactly
`retryDelay * n` before attempt n+1 — linear in the attempt index — and no
wait occurs after the final attempt or after a 401/403 abort; with
`retryAttempts = 3` and a collector rejecting with status 500 on attempts
1 and 2 and returning 200 with a body on attempt 3, exactly 3 requests are
issued, exactly 2 waits of magnitudes `1×retryDelay` then `2×retryDelay`
occur, and the result is the attempt-3 body. However, a response that
resolves but fails the success check (e.g. a 200 with an empty body) falls
through to the next attempt with NO wait: with the same configuration and
a collector resolving 200-with-empty-body on attempt 1 and rejecting with
status 500 on attempts 2 and 3, the only wait is the `2×retryDelay` one
after attempt 2. -/
theorem backoff_linear_rejected_scenario (st : MiddlewareState) (now : String)
    (net net2 : Nat → NetResponse) (stack level packageName message : String)
    (e1 e2 : JsError) (b : LogResponse)
    (hR : st.config.retryAttempts = 3)
    (h1 : net 1 = NetResponse.rejected e1) (h1s : e1.status = some 500)
    (h2 : net 2 = NetResponse.rejected e2) (h2s : e2.status = some 500)
    (h3 : net 3 = NetResponse.resolved 200 (some b))
    (g1 : net2 1 = NetResponse.resolved 200 none)
    (g2 : net2 2 = NetResponse.rejected e1)
    (g3 : net2 3 = NetResponse.rejected e2) :
    (LoggingMiddleware.log st now net stack level packageName message).1 = some b ∧
    (posts (LoggingMiddleware.log st now net stack level packageName message).2).map
        (fun p => p.attempt) = [1, 2, 3] ∧
    waits (LoggingMiddleware.log st now net stack level packageName message).2
        = [st.config.retryDelay * 1, st.config.retryDelay * 2] ∧
    waits (LoggingMiddleware.log st now net2 stack level packageName message).2
        = [st.config.retryDelay * 2] := by
  have hab1 : (e1.isAxiosError && (e1.status == some 401 || e1.status == some 403))
      = false := by
    simp [h1s]
  have hab2 : (e2.isAxiosError && (e2.status == some 401 || e2.status == some 403))
      = false := by
    simp [h2s]
  have hfuel : st.config.retryAttempts.toNat = 3 := by
    rw [hR]
    rfl
  have s1 := sendLoop_rejected_noabort_eq st.config st.apiClient net
    { stack := stack, level := level, package := packageName, message := message }
    1 2 none e1 h1 hab1
  have s2 := sendLoop_rejected_noabort_eq st.config st.apiClient net
    { stack := stack, level := level, package := packageName, message := message }
    2 1 (some e1) e2 h2 hab2
  have s3 := sendLoop_resolved_success_eq st.config st.apiClient net
    { stack := stack, level := level, package := packageName, message := message }
    3 0 (some e2) b h3
  norm_num at s1 s2 s3
  rw [s3] at s2
  rw [s2] at s1
  have u1 := sendLoop_resolved_fail_eq st.config st.apiClient net2
    { stack := stack, level := level, package := packageName, message := message }
    1 2 none 200 none g1 (by simp)
  have u2 := sendLoop_rejected_noabort_eq st.config st.apiClient net2
    { stack := stack, level := level, package := packageName, message := message }
    2 1 none e1 g2 hab1
  have u3 := sendLoop_rejected_noabort_eq st.config st.apiClient net2
    { stack := stack, level := level, package := packageName, message := message }
    3 0 (some e1) e2 g3 hab2
  norm_num at u1 u2 u3
  rw [u3] at u2
  rw [u2] at u1
  refine ⟨?_, ?_, ?_, ?_⟩
  · simp only [LoggingMiddleware.log, LoggingMiddleware.sendLogToAPI, hfuel]
    rw [s1]
  · simp only [LoggingMiddleware.log, LoggingMiddleware.sendLogToAPI, hfuel]
    rw [s1]
    simp [LoggingMiddleware.logToConsole]
  · simp only [LoggingMiddleware.log, LoggingMiddleware.sendLogToAPI, hfuel]
    rw [s1]
    simp [LoggingMiddleware.logToConsole, hR]
  · simp only [LoggingMiddleware.log, LoggingMiddleware.sendLogToAPI, hfuel]
    rw [u1]
    simp [LoggingMiddleware.logToConsole, LoggingMiddleware.finalFailure, hR,
      LoggingMiddleware.sendLoop]

/-! ### Concrete instances used by the counterexample and the closed
instantiations of the theorems above -/

/-- A frontend-style configuration with console echo off, 3 attempts and a
1000 ms base delay. -/
def cexLoggerConfig : LoggerConfig :=
  { apiUrl := "http://collector.example", accessToken := "token0",
    defaultStack := "frontend", enableConsoleLog := some false,
    retryAttempts := some 3, retryDelay := some 1000 }

/-- An axios-style error for an HTTP 500 response. -/
def wErr500 : JsError :=
  { isAxiosError := true, status := some 500,
    message := "Request failed with status code 500" }

/-- A collector that resolves 200 with an empty (falsy) body on attempt 1
and rejects with status 500 afterwards. -/
def cexNet : Nat → NetResponse := fun n =>
  if n = 1 then NetResponse.resolved 200 none
  else NetResponse.rejected wErr500

/-- C2, counterexample to the claim as stated: attempt 1 fails retryably
(it resolves with status 200 but an empty body, which the spec classifies
as a retryable malformed-body failure) with `retryAttempts = 3` and
`retryDelay = 1000`, yet the loop performs NO wait of `1000 * 1` before
attempt 2 — the only wait in the whole trace is the `1000 * 2` one that
follows the caught rejection of attempt 2; the claimed wait schedule
`[1000, 2000]` does not occur. -/
theorem backoff_claim_counterexample :
    waits (LoggingMiddleware.log (LoggingMiddleware.create cexLoggerConfig)
        "2026-01-01T00:00:00.000Z" cexNet "frontend" "info" "api" "msg").2
      = [2000] ∧
    Event.wait 1000 ∉ (LoggingMiddleware.log (LoggingMiddleware.create cexLoggerConfig)
        "2026-01-01T00:00:00.000Z" cexNet "frontend" "info" "api" "msg").2 ∧
    waits (LoggingMiddleware.log (LoggingMiddleware.create cexLoggerConfig)
        "2026-01-01T00:00:00.000Z" cexNet "frontend" "info" "api" "msg").2
      ≠ [1000, 2000] := by
  refine ⟨by decide, by decide, by decide⟩

/-- A frontend-style configuration with console echo on, 3 attempts and a
1000 ms base delay. -/
def wLoggerConfig : LoggerConfig :=
  { apiUrl := "http://collector.example", accessToken := "token0",
    defaultStack := "frontend", enableConsoleLog := some true,
    retryAttempts := some 3, retryDelay := some 1000 }

/-- The shipper state built from `wLoggerConfig`. -/
def wState : MiddlewareState := LoggingMiddleware.create wLoggerConfig

/-- A concrete collector acknowledgement body. -/
def wBody : LogResponse := { logID := "log-1", message := "log created successfully" }

/-- A collector that always succeeds with `wBody`. -/
def wNetOK : Nat → NetResponse := fun _ => NetResponse.resolved 200 (some wBody)

/-- An axios-style error for an HTTP 401 response. -/
def wErr401 : JsError :=
  { isAxiosError := true, status := some 401,
    message := "Request failed with status code 401" }

/-- A collector that always rejects with 401. -/
def wNet401 : Nat → NetResponse := fun _ => NetResponse.rejected wErr401

/-- An axios-style timeout error: no HTTP response status. -/
def wErrTimeout : JsError :=
  { isAxiosError := true, status := none,
    message := "timeout of 10000ms exceeded" }

/-- A collector that always times out. -/
def wNetTimeout : Nat → NetResponse := fun _ => NetResponse.rejected wErrTimeout

/-- A collector that rejects with 500 on attempts 1 and 2 and succeeds on
attempt 3. -/
def wNet500x2 : Nat → NetResponse := fun n =>
  if n ≤ 2 then NetResponse.rejected wErr500 else NetResponse.resolved 200 (some wBody)

/-- Closed instantiation of `backoff_linear_rejected_scenario` at the
concrete frontend state, the 500/500/200 collector and the
empty-body/500/500 collector. -/
theorem backoff_linear_rejected_scenario_witness :
    wState.config.retryAttempts = 3 ∧
    ((LoggingMiddleware.log wState "2026-01-01T00:00:00.000Z" wNet500x2
        "frontend" "info" "api" "msg").1 = some wBody ∧
     (posts (LoggingMiddleware.log wState "2026-01-01T00:00:00.000Z" wNet500x2
        "frontend" "info" "api" "msg").2).map (fun p => p.attempt) = [1, 2, 3] ∧
     waits (LoggingMiddleware.log wState "2026-01-01T00:00:00.000Z" wNet500x2
        "frontend" "info" "api" "msg").2
       = [wState.config.retryDelay * 1, wState.config.retryDelay * 2] ∧
     waits (LoggingMiddleware.log wState "2026-01-01T00:00:00.000Z" cexNet
        "frontend" "info" "api" "msg").2
       = [wState.config.retryDelay * 2]) :=
  ⟨rfl,
   backoff_linear_rejected_scenario wState "2026-01-01T00:00:00.000Z" wNet500x2
     cexNet "frontend" "info" "api" "msg" wErr500 wErr500 wBody rfl rfl rfl rfl
     rfl rfl rfl rfl rfl⟩

/-- Closed instantiation of `abort_on_401` at the concrete frontend state
and the always-401 collector. -/
theorem abort_on_401_witness :
    (1 : Int) ≤ wState.config.retryAttempts ∧
    ((LoggingMiddleware.log wState "2026-01-01T00:00:00.000Z" wNet401
        "frontend" "error" "api" "msg").1 = none ∧
     (posts (LoggingMiddleware.log wState "2026-01-01T00:00:00.000Z" wNet401
        "frontend" "error" "api" "msg").2).map (fun p => p.attempt) = [1] ∧
     waits (LoggingMiddleware.log wState "2026-01-01T00:00:00.000Z" wNet401
        "frontend" "error" "api" "msg").2 = []) :=
  ⟨by decide,
   abort_on_401 wState "2026-01-01T00:00:00.000Z" wNet401 "frontend" "error"
     "api" "msg" wErr401 (fun _ => rfl) rfl rfl (by decide)⟩

/-- Closed instantiation of `success_iff_200_nonempty` at the concrete
frontend state and the always-successful collector. -/
theorem success_iff_200_nonempty_witness :
    wNetOK 1 = NetResponse.resolved 200 (some wBody) ∧
    ((LoggingMiddleware.log wState "2026-01-01T00:00:00.000Z" wNetOK
        "frontend" "info" "api" "msg").1 = some wBody ∧
     (posts (LoggingMiddleware.log wState "2026-01-01T00:00:00.000Z" wNetOK
        "frontend" "info" "api" "msg").2).map (fun p => p.attempt) = [1] ∧
     waits (LoggingMiddleware.log wState "2026-01-01T00:00:00.000Z" wNetOK
        "frontend" "info" "api" "msg").2 = []) :=
  ⟨rfl,
   (success_iff_200_nonempty wState "2026-01-01T00:00:00.000Z" wNetOK
     "frontend" "info" "api" "msg" wBody (by decide)).1 rfl⟩

/-- Closed instantiation of `exhausted_retries` at the concrete frontend
state (N = 3) and the always-timeout collector. -/
theorem exhausted_retries_witness :
    wState.config.retryAttempts = (3 : Int) ∧
    ((LoggingMiddleware.log wState "2026-01-01T00:00:00.000Z" wNetTimeout
        "frontend" "warn" "api" "msg").1 = none ∧
     (posts (LoggingMiddleware.log wState "2026-01-01T00:00:00.000Z" wNetTimeout
        "frontend" "warn" "api" "msg").2).length = 3 ∧
     waits (LoggingMiddleware.log wState "2026-01-01T00:00:00.000Z" wNetTimeout
        "frontend" "warn" "api" "msg").2 = [1000, 2000] ∧
     Event.console ConsoleChannel.error
         [ConsoleArg.str "Failed to send log to API after all retries:",
          ConsoleArg.str wErrTimeout.message]
       ∈ (LoggingMiddleware.log wState "2026-01-01T00:00:00.000Z" wNetTimeout
           "frontend" "warn" "api" "msg").2 ∧
     Event.console ConsoleChannel.error
         [ConsoleArg.str "Original log entry:",
          ConsoleArg.entryArg
            { stack := "frontend", level := "warn", package := "api", message := "msg" }]
       ∈ (LoggingMiddleware.log wState "2026-01-01T00:00:00.000Z" wNetTimeout
           "frontend" "warn" "api" "msg").2) := by
  have h := exhausted_retries wState "2026-01-01T00:00:00.000Z" wNetTimeout
    "frontend" "warn" "api" "msg" (fun _ => wErrTimeout) (fun _ => rfl)
    (fun _ => rfl) 3 rfl (by decide)
  exact ⟨rfl, h.1, h.2.2.1, h.2.2.2.1, (h.2.2.2.2.2 rfl).1, (h.2.2.2.2.2 rfl).2⟩

/-- Closed instantiation of `console_echo_first_formatted` at the concrete
frontend state. -/
theorem console_echo_first_formatted_witness :
    wState.config.enableConsoleLog = true ∧
    ((LoggingMiddleware.log wState "2026-01-01T00:00:00.000Z" wNetOK
        "frontend" "fatal" "api" "msg").2
      = Event.console (LoggingMiddleware.consoleChannelFor "fatal")
          [ConsoleArg.str ("[" ++ "2026-01-01T00:00:00.000Z" ++ "] ["
              ++ "frontend".toUpper ++ "] [" ++ "fatal".toUpper ++ "] ["
              ++ "api" ++ "] " ++ "msg")]
        :: (LoggingMiddleware.sendLogToAPI wState wNetOK
              { stack := "frontend", level := "fatal", package := "api",
                message := "msg" }).2 ∧
     LoggingMiddleware.consoleChannelFor "debug" = ConsoleChannel.debug ∧
     LoggingMiddleware.consoleChannelFor "info" = ConsoleChannel.info ∧
     LoggingMiddleware.consoleChannelFor "warn" = ConsoleChannel.warn ∧
     LoggingMiddleware.consoleChannelFor "error" = ConsoleChannel.error ∧
     LoggingMiddleware.consoleChannelFor "fatal" = ConsoleChannel.error) :=
  ⟨rfl,
   console_echo_first_formatted wState "2026-01-01T00:00:00.000Z" wNetOK
     "frontend" "fatal" "api" "msg" rfl⟩

/-- The single request issued by a `log` call on the token-updated state. -/
def wUpdatedPost : PostInfo :=
  { attempt := 1, method := "POST", baseURL := "http://collector.example",
    path := "/logs", contentType := "application/json",
    auth := "Bearer " ++ "token1", timeout := 10000,
    body := { stack := "frontend", level := "info", package := "api",
              message := "msg" } }

/-- Closed instantiation of `updateAccessToken_spec` at the concrete
frontend state and the token `token1`: the updated state differs only in
token and header, and the one request of a subsequent `log` call carries
the new bearer header. -/
theorem updateAccessToken_spec_witness :
    wUpdatedPost ∈ posts (LoggingMiddleware.log
        (LoggingMiddleware.updateAccessToken wState "token1")
        "2026-01-01T00:00:00.000Z" wNetOK "frontend" "info" "api" "msg").2 ∧
    (LoggingMiddleware.updateAccessToken wState "token1").config.accessToken
        = "token1" ∧
    (LoggingMiddleware.updateAccessToken wState "token1").apiClient.authHeader
        = "Bearer " ++ "token1" ∧
    (LoggingMiddleware.updateAccessToken wState "token1").config.apiUrl
        = wState.config.apiUrl ∧
    (LoggingMiddleware.updateAccessToken wState "token1").config.retryAttempts
        = wState.config.retryAttempts ∧
    wUpdatedPost.auth = "Bearer " ++ "token1" := by
  have h := updateAccessToken_spec wState "token1"
  refine ⟨by decide, h.1, h.2.1, h.2.2.1, h.2.2.2.2.2.1, ?_⟩
  exact h.2.2.2.2.2.2.2.2.2.2.2.2.1 "2026-01-01T00:00:00.000Z" wNetOK
    "frontend" "info" "api" "msg" wUpdatedPost (by decide)

/-- The single request issued by a `log` call on the freshly constructed
state. -/
def wCreatedPost : PostInfo :=
  { attempt := 1, method := "POST", baseURL := "http://collector.example",
    path := "/logs", contentType := "application/json",
    auth := "Bearer " ++ "token0", timeout := 10000,
    body := { stack := "frontend", level := "info", package := "api",
              message := "msg" } }

/-- Closed instantiation of `wire_contract_and_profiles`: the request of a
concrete `log` call has the documented wire shape, and the constructor
defaults and both factory profiles have the documented values. -/
theorem wire_contract_and_profiles_witness :
    wCreatedPost ∈ posts (LoggingMiddleware.log
        (LoggingMiddleware.create wLoggerConfig)
        "2026-01-01T00:00:00.000Z" wNetOK "frontend" "info" "api" "msg").2 ∧
    (wCreatedPost.method = "POST" ∧ wCreatedPost.baseURL = wLoggerConfig.apiUrl ∧
     wCreatedPost.path = "/logs" ∧ wCreatedPost.contentType = "application/json" ∧
     wCreatedPost.auth = "Bearer " ++ wLoggerConfig.accessToken ∧
     wCreatedPost.timeout = 10000 ∧
     wCreatedPost.body
       = { stack := "frontend", level := "info", package := "api", message := "msg" }) ∧
    (LoggingMiddleware.create
        { apiUrl := "u", accessToken := "t", defaultStack := "frontend",
          enableConsoleLog := none, retryAttempts := none,
          retryDelay := none }).config
      = { apiUrl := "u", accessToken := "t", defaultStack := "frontend",
          enableConsoleLog := true, retryAttempts := 3, retryDelay := 1000 } ∧
    (createFrontendLogger "u" "t").config
      = { apiUrl := "u", accessToken := "t", defaultStack := "frontend",
          enableConsoleLog := true, retryAttempts := 3, retryDelay := 1000 } ∧
    (createBackendLogger "u" "t").config
      = { apiUrl := "u", accessToken := "t", defaultStack := "backend",
          enableConsoleLog := false, retryAttempts := 5, retryDelay := 2000 } := by
  have h := wire_contract_and_profiles
  refine ⟨by decide, ?_, h.2.1 "u" "t" "frontend", h.2.2.1 "u" "t", h.2.2.2 "u" "t"⟩
  exact h.1 wLoggerConfig "2026-01-01T00:00:00.000Z" wNetOK "frontend" "info"
    "api" "msg" wCreatedPost (by decide)

/-- A configuration whose `retryAttempts` is zero. -/
def wZeroConfig : LoggerConfig :=
  { apiUrl := "http://collector.example", accessToken := "token0",
    defaultStack := "frontend", enableConsoleLog := some true,
    retryAttempts := some 0, retryDelay := some 1000 }

/-- Closed instantiation of `nonpositive_retryAttempts` at a concrete state
with `retryAttempts = 0`. -/
theorem nonpositive_retryAttempts_witness :
    (LoggingMiddleware.create wZeroConfig).config.retryAttempts ≤ 0 ∧
    (LoggingMiddleware.create wZeroConfig).config.enableConsoleLog = true ∧
    ((LoggingMiddleware.log (LoggingMiddleware.create wZeroConfig)
        "2026-01-01T00:00:00.000Z" wNetOK "frontend" "info" "api" "msg").1 = none ∧
     posts (LoggingMiddleware.log (LoggingMiddleware.create wZeroConfig)
        "2026-01-01T00:00:00.000Z" wNetOK "frontend" "info" "api" "msg").2 = [] ∧
     (LoggingMiddleware.log (LoggingMiddleware.create wZeroConfig)
        "2026-01-01T00:00:00.000Z" wNetOK "frontend" "info" "api" "msg").2
       = [LoggingMiddleware.logToConsole "2026-01-01T00:00:00.000Z"
            { stack := "frontend", level := "info", package := "api",
              message := "msg" },
          Event.console ConsoleChannel.error
            [ConsoleArg.str "Failed to send log to API after all retries:",
             ConsoleArg.undef],
          Event.console ConsoleChannel.error
            [ConsoleArg.str "Original log entry:",
             ConsoleArg.entryArg
               { stack := "frontend", level := "info", package := "api",
                 message := "msg" }]]) :=
  ⟨by decide, rfl,
   nonpositive_retryAttempts (LoggingMiddleware.create wZeroConfig)
     "2026-01-01T00:00:00.000Z" wNetOK "frontend" "info" "api" "msg"
     (by decide) rfl⟩
